import Mathlib

/-!
# Verification of the geckostream image-analysis pipeline (src/app.py)

A shallow embedding of the pipeline in `src/app.py`:

* `extract_file_ids_from_folder` — scans a folder-listing body for Google
  Drive file links (the regex `https://drive\.google\.com/file/d/([a-zA-Z0-9_-]+)`),
  deduplicates the captured identifiers and builds `ImageRef` entries.
* `search_google_lens` — projects a visual-search response into at most 15
  `MatchRecord`s, with defaults for missing optional fields.
* `get_anthropic_analysis` — returns the first text block of the model
  response, or the sentinel `"Error in generating analysis"` on any failure.
* `create_excel_report` — builds the worksheet (header row, one data row per
  result, column widths, borders) and returns whether the save succeeded.
* `stepImage` / `mainRun` — the orchestrating `main` loop: per-image
  download / temp-file save / search / summarize / append, progress
  reporting, report generation and best-effort temp-file cleanup.

External effects (HTTP responses, image decoding, API outcomes, row-embedding
exceptions, save success) are modelled as explicit oracle parameters; the
filesystem is a list of existing paths.
-/

/-- One discovered image: the dict `{'id': .., 'url': .., 'name': ..}` built by
`extract_file_ids_from_folder`. -/
structure ImageRef where
  id : String
  url : String
  name : String
deriving DecidableEq, Repr

/-- A character matched by the regex character class `[a-zA-Z0-9_-]`. -/
def isIdChar (c : Char) : Bool :=
  c.isAlpha || c.isDigit || c = '_' || c = '-'

/-- The literal part of the pattern `https://drive\.google\.com/file/d/`. -/
def driveMarker : List Char := "https://drive.google.com/file/d/".toList

/-- Left-to-right scan for non-overlapping matches of the file-link pattern,
returning the captured `[a-zA-Z0-9_-]+` group of each match, exactly as
`re.findall` does on this pattern.  The fuel argument (instantiated with the
input length, which bounds the number of scan steps) makes the recursion
structural. -/
def findMatchesAux : Nat → List Char → List String
  | 0, _ => []
  | _, [] => []
  | fuel + 1, c :: rest =>
    if List.isPrefixOf driveMarker (c :: rest) then
      let after := List.drop driveMarker.length (c :: rest)
      let idrun := after.takeWhile isIdChar
      if idrun.isEmpty then
        findMatchesAux fuel rest
      else
        String.mk idrun :: findMatchesAux fuel (after.dropWhile isIdChar)
    else
      findMatchesAux fuel rest

/-- All captured file identifiers of a folder-listing body, in match order. -/
def findMatches (body : String) : List String :=
  findMatchesAux body.toList.length body.toList

/-- `extract_file_ids_from_folder`, given the folder-listing response body:
`file_ids = list(set(re.findall(pattern, response.text)))` followed by the
construction of the url/name dicts.  Python's `set` iteration order is
unspecified; it is modelled as first-occurrence order (`List.dedup`). -/
def extract_file_ids_from_folder (body : String) : List ImageRef :=
  let file_ids := (findMatches body).dedup
  file_ids.map fun file_id =>
    { id := file_id
      url := "https://drive.google.com/uc?id=" ++ file_id
      name := "image_" ++ file_id ++ ".jpg" }

/-- One raw entry of the response's `visual_matches` array; `none` models a
missing key (so `dict.get` falls back to its default). -/
structure RawMatch where
  position : Option Int
  title : Option String
  source : Option String
  price : Option String
  extracted_price : Option Rat
  currency : Option String
deriving DecidableEq, Repr

/-- The `filtered_entry` dict built by `search_google_lens` for one match. -/
structure MatchRecord where
  position : Option Int
  title : Option String
  source : Option String
  price : String
  extracted_price : Rat
  currency : String
deriving DecidableEq, Repr

/-- The projection of one raw match: `match.get(key)` for position/title/source
and `match.get(key, default)` for price/extracted_price/currency. -/
def projectMatch (m : RawMatch) : MatchRecord :=
  { position := m.position
    title := m.title
    source := m.source
    price := m.price.getD "N/A"
    extracted_price := m.extracted_price.getD 0
    currency := m.currency.getD "N/A" }

/-- `search_google_lens`, given the outcome of the HTTP call: `Except.error`
models any exception (non-success status via `raise_for_status`, network or
JSON failure), which the function catches, returning `[]`.  On success it
takes `visual_matches[:15]` and projects each entry. -/
def search_google_lens (resp : Except String (List RawMatch)) : List MatchRecord :=
  match resp with
  | Except.error _ => []
  | Except.ok visual_matches => (visual_matches.take 15).map projectMatch

/-- The `message.content` returned by the model client: either a plain string
or a list of text blocks (the code takes `content[0].text` in the latter
case). -/
inductive ApiContent where
  | str (s : String)
  | blocks (l : List String)
deriving DecidableEq, Repr

/-- `get_anthropic_analysis`, given the outcome of the API call.
`Except.error` models an exception raised by `client.messages.create`; an
empty block list makes `content[0]` raise inside the same `try`, so it also
yields the sentinel. -/
def get_anthropic_analysis (outcome : Except String ApiContent) : String :=
  match outcome with
  | Except.error _ => "Error in generating analysis"
  | Except.ok (ApiContent.str s) => s
  | Except.ok (ApiContent.blocks []) => "Error in generating analysis"
  | Except.ok (ApiContent.blocks (t :: _)) => t

/-- One appended `results` entry (an ImageResult row). -/
structure ImageResultRec where
  name : String
  temp_image_path : String
  analysis : String
deriving DecidableEq, Repr

/-- The environment of one iteration of the per-image loop in `main`: the HTTP
status of the image download, whether `Image.open`/`convert`/`save` succeeds
(false models an exception, caught by the per-image `except`), and the
outcomes of the two API calls. -/
structure ImgEnv where
  fetchStatus : Nat
  decodeOk : Bool
  lensResp : Except String (List RawMatch)
  anthropicResp : Except String ApiContent

/-- The mutable state of one run of `main`: the `results` list, the
`temp_files` set (as an insertion-ordered list), the filesystem (the list of
existing paths), an append-only log of file saves `(path, format)`, the trace
of values reported to the progress bar, and an append-only log of the
argument of each summarizer invocation. -/
structure RunState where
  results : List ImageResultRec
  tempFiles : List String
  fs : List String
  savedFiles : List (String × String)
  progress : List Nat
  summCalls : List (List MatchRecord)
deriving DecidableEq, Repr

/-- `set.add` / file creation: insert a path if not already present. -/
def insertPath (p : String) (l : List String) : List String :=
  if p ∈ l then l else l ++ [p]

/-- One iteration of `for i, image in enumerate(images)` in `main`, with
`n = len(images)`: report progress `int(20 + 60*(i+1)/n)` (exact integer
arithmetic models the float expression), track the temp path, and on a 200
download with a successful decode save the PNG, run the search, and — only
for a non-empty match list — invoke the summarizer and append the row.
A non-200 status or a decode exception leaves state otherwise unchanged. -/
def stepImage (n i : Nat) (img : ImageRef) (env : ImgEnv) (s : RunState) : RunState :=
  let prog := 20 + 60 * (i + 1) / n
  let temp_path := "temp_image_" ++ img.id ++ ".png"
  let s := { s with
    progress := s.progress ++ [prog]
    tempFiles := if temp_path ∈ s.tempFiles then s.tempFiles else s.tempFiles ++ [temp_path] }
  if env.fetchStatus = 200 then
    if env.decodeOk then
      let s := { s with
        fs := insertPath temp_path s.fs
        savedFiles := s.savedFiles ++ [(temp_path, "PNG")] }
      let lens_results := search_google_lens env.lensResp
      if lens_results.isEmpty then s
      else
        let analysis := get_anthropic_analysis env.anthropicResp
        { s with
          summCalls := s.summCalls ++ [lens_results]
          results := s.results ++
            [{ name := img.name, temp_image_path := temp_path, analysis := analysis }] }
    else s
  else s

/-- The per-image loop of `main`, over the images with their indices. -/
def runImages (n : Nat) (envs : Nat → ImgEnv) : Nat → List ImageRef → RunState → RunState
  | _, [], s => s
  | i, img :: rest, s => runImages n envs (i + 1) rest (stepImage n i img (envs i) s)

/-- One worksheet cell: its value plus the styling the code applies
(font bold, horizontal center alignment, wrap_text, vertical top, thin
border). -/
structure CellData where
  value : Option String := none
  bold : Bool := false
  centered : Bool := false
  wrapText : Bool := false
  vertTop : Bool := false
  border : Bool := false
deriving DecidableEq, Repr

/-- The openpyxl worksheet: cells indexed by (row, column) with 1-based
indices, the anchored images `(path, row)`, the per-row heights and the
per-column widths. -/
structure Worksheet where
  cells : Nat × Nat → CellData
  images : List (String × Nat)
  rowHeights : Nat → Option Nat
  colWidths : String → Option Nat

/-- A fresh workbook's active sheet. -/
def emptyWorksheet : Worksheet :=
  { cells := fun _ => {}
    images := []
    rowHeights := fun _ => none
    colWidths := fun _ => none }

/-- Point update of one cell. -/
def updateCell (ws : Worksheet) (r c : Nat) (f : CellData → CellData) : Worksheet :=
  { ws with cells := fun p => if p = (r, c) then f (ws.cells p) else ws.cells p }

/-- The header loop `for col, header in enumerate(headers, 1)`: value, bold
font, centered alignment. -/
def setupHeaders (ws : Worksheet) : Worksheet :=
  [(1, "Image"), (2, "File Name"), (3, "Analysis")].foldl
    (fun w p =>
      updateCell w 1 p.1 fun cd => { cd with value := some p.2, bold := true, centered := true })
    ws

/-- `len(result['analysis'].split('\n'))`: the number of newline-separated
segments. -/
def lineCount (s : String) : Nat := (s.splitOn "\n").length

/-- The row body that runs after the image-embedding step of one data row:
write the name in column 2, the analysis in column 3 (wrap text, vertical
top), and set the row height to `max(200, text_lines * 15)`. -/
def writeNameAnalysis (rowIdx : Nat) (res : ImageResultRec) (ws : Worksheet) : Worksheet :=
  let ws1 := updateCell ws rowIdx 2 fun cd => { cd with value := some res.name }
  let ws2 := updateCell ws1 rowIdx 3 fun cd =>
    { cd with value := some res.analysis, wrapText := true, vertTop := true }
  { ws2 with rowHeights := fun r =>
      if r = rowIdx then some (max 200 (lineCount res.analysis * 15)) else ws2.rowHeights r }

/-- One iteration of the data loop of `create_excel_report`, at row `rowIdx`.
`fE` is the `os.path.exists` oracle; `eR path = true` models
`XLImage(path)`/`add_image` raising, in which case the per-row `except`
catches and the rest of the row body is skipped. -/
def addRow (fE eR : String → Bool) (rowIdx : Nat) (res : ImageResultRec) (ws : Worksheet) :
    Worksheet :=
  if fE res.temp_image_path then
    if eR res.temp_image_path then ws
    else
      writeNameAnalysis rowIdx res
        { ws with images := ws.images ++ [(res.temp_image_path, rowIdx)] }
  else writeNameAnalysis rowIdx res ws

/-- The data loop `for row_idx, result in enumerate(results, 2)`. -/
def addRows (fE eR : String → Bool) : Nat → List ImageResultRec → Worksheet → Worksheet
  | _, [], ws => ws
  | k, res :: rest, ws => addRows fE eR (k + 1) rest (addRow fE eR k res ws)

/-- `ws.column_dimensions['A'/'B'/'C'].width = 30/30/50`. -/
def setColumnWidths (ws : Worksheet) : Worksheet :=
  { ws with colWidths := fun s =>
      if s = "A" then some 30
      else if s = "B" then some 30
      else if s = "C" then some 50
      else ws.colWidths s }

/-- Apply the thin border to the three cells of one row
(`for cell in row: cell.border = thin_border`). -/
def applyBorderRow (ws : Worksheet) (r : Nat) : Worksheet :=
  [1, 2, 3].foldl (fun w c => updateCell w r c fun cd => { cd with border := true }) ws

/-- `ws.iter_rows(min_row=1, max_row=len(results)+1, min_col=1, max_col=3)`:
border every cell of rows 1..maxRow. -/
def applyBorders (ws : Worksheet) (maxRow : Nat) : Worksheet :=
  ((List.range maxRow).map (· + 1)).foldl applyBorderRow ws

/-- `create_excel_report`: headers, data rows (with the per-row oracles),
column widths, borders, and the save attempt — `saveOk` models whether
`wb.save` succeeds, and is returned as the function's True/False result. -/
def create_excel_report (results : List ImageResultRec) (fE eR : String → Bool)
    (saveOk : Bool) : Worksheet × Bool :=
  let ws := setupHeaders emptyWorksheet
  let ws := addRows fE eR 2 results ws
  let ws := setColumnWidths ws
  let ws := applyBorders ws (results.length + 1)
  (ws, saveOk)

/-- The whole `main` run past the button press, for a given folder-listing
body and oracles: extract (progress 20), loop over the images, then — when
`results` is non-empty — progress 90, build and save the report (progress 100
on success), and finally delete every tracked temp file that still exists.
The initial `st.progress(0)` is the leading 0 of the trace. -/
def mainRun (body : String) (envs : Nat → ImgEnv) (eR : String → Bool) (saveOk : Bool)
    (outputFile : String) (fs0 : List String) : RunState :=
  let s0 : RunState :=
    { results := [], tempFiles := [], fs := fs0, savedFiles := [], progress := [0],
      summCalls := [] }
  let images := extract_file_ids_from_folder body
  let s1 := { s0 with progress := s0.progress ++ [20] }
  if images.isEmpty then s1
  else
    let s2 := runImages images.length envs 0 images s1
    let s3 :=
      if s2.results.isEmpty then s2
      else
        let s' := { s2 with progress := s2.progress ++ [90] }
        let rep := create_excel_report s2.results (fun p => decide (p ∈ s'.fs)) eR saveOk
        if rep.2 then
          { s' with progress := s'.progress ++ [100], fs := insertPath outputFile s'.fs }
        else s'
    { s3 with fs := s3.fs.filter fun p => decide (p ∉ s3.tempFiles) }

/-- The per-image progress values of a run over n images:
`int(20 + 60*(i+1)/n)` for `i = 0 .. n-1`. -/
def loopProgress (n : Nat) : List Nat :=
  (List.range n).map fun j => 20 + 60 * (j + 1) / n

/-- A worksheet row is populated when one of its three cells holds a value
(borders alone create cells but no values). -/
def rowPopulated (ws : Worksheet) (r : Nat) : Bool :=
  ((ws.cells (r, 1)).value).isSome || ((ws.cells (r, 2)).value).isSome ||
    ((ws.cells (r, 3)).value).isSome

/-! ## C1: the link extractor deduplicates and formats every discovered id -/

/-- C1: a folder-listing body containing K distinct file-identifier patterns
(matches of the Google Drive file-link pattern) yields exactly K `ImageRef`
entries, with pairwise distinct ids, url `https://drive.google.com/uc?id=<id>`
and name `image_<id>.jpg`, regardless of duplicate occurrences of the same
identifier in the body. -/
theorem extract_file_ids_distinct_and_formatted (body : String) :
    (extract_file_ids_from_folder body).length = (findMatches body).dedup.length ∧
    ((extract_file_ids_from_folder body).map ImageRef.id).Nodup ∧
    ∀ e ∈ extract_file_ids_from_folder body,
      e.url = "https://drive.google.com/uc?id=" ++ e.id ∧
      e.name = "image_" ++ e.id ++ ".jpg" := by
  refine ⟨?_, ?_, ?_⟩
  · simp [extract_file_ids_from_folder]
  · have h : ((extract_file_ids_from_folder body).map ImageRef.id) =
        (findMatches body).dedup := by
      simp only [extract_file_ids_from_folder, List.map_map]
      have hcomp : (ImageRef.id ∘ fun file_id =>
          ({ id := file_id, url := "https://drive.google.com/uc?id=" ++ file_id,
             name := "image_" ++ file_id ++ ".jpg" } : ImageRef)) = id := by
        funext x; rfl
      rw [hcomp, List.map_id]
    rw [h]
    exact List.nodup_dedup _
  · intro e he
    simp only [extract_file_ids_from_folder, List.mem_map] at he
    obtain ⟨fid, _, rfl⟩ := he
    exact ⟨rfl, rfl⟩

/-- C1 witness: a concrete body with two distinct identifiers, one of them
occurring twice, yields exactly two entries with distinct ids. -/
theorem extract_file_ids_distinct_and_formatted_witness :
    (findMatches "x https://drive.google.com/file/d/AAA y https://drive.google.com/file/d/BB-7 z https://drive.google.com/file/d/AAA w").dedup.length = 2 ∧
    (extract_file_ids_from_folder "x https://drive.google.com/file/d/AAA y https://drive.google.com/file/d/BB-7 z https://drive.google.com/file/d/AAA w").length = 2 ∧
    ((extract_file_ids_from_folder "x https://drive.google.com/file/d/AAA y https://drive.google.com/file/d/BB-7 z https://drive.google.com/file/d/AAA w").map ImageRef.id).Nodup :=
  ⟨by decide,
   (extract_file_ids_distinct_and_formatted _).1.trans (by decide),
   (extract_file_ids_distinct_and_formatted _).2.1⟩

/-! ## C4: truncation to 15 matches with defaulted fields -/

/-- C4: on a successful visual-search response, `search_google_lens` returns
exactly the first 15 entries of `visual_matches` (all of them when there are
fewer), each projected to position/title/source with defaults `"N/A"`, `0.0`
and `"N/A"` for missing price, extracted_price and currency. -/
theorem search_google_lens_truncates_and_defaults (ms : List RawMatch) (i : Nat)
    (h1 : i < (search_google_lens (Except.ok ms)).length) (h2 : i < ms.length) :
    (search_google_lens (Except.ok ms)).length = min 15 ms.length ∧
    search_google_lens (Except.ok ms) = (ms.take 15).map projectMatch ∧
    (search_google_lens (Except.ok ms)).get ⟨i, h1⟩ =
      { position := (ms.get ⟨i, h2⟩).position
        title := (ms.get ⟨i, h2⟩).title
        source := (ms.get ⟨i, h2⟩).source
        price := ((ms.get ⟨i, h2⟩).price).getD "N/A"
        extracted_price := ((ms.get ⟨i, h2⟩).extracted_price).getD 0
        currency := ((ms.get ⟨i, h2⟩).currency).getD "N/A" } := by
  refine ⟨?_, rfl, ?_⟩
  · simp [search_google_lens]
  · have hi15 : i < 15 := by
      have := h1
      simp [search_google_lens, List.length_take] at this
      omega
    simp [search_google_lens, List.get_eq_getElem, List.getElem_map, List.getElem_take,
      projectMatch]

/-- C4 witness: a response with 16 entries, all fields missing, is truncated
to 15 records whose first entry carries all three defaults. -/
theorem search_google_lens_truncates_and_defaults_witness :
    0 < (search_google_lens (Except.ok
        (List.replicate 16 (⟨none, none, none, none, none, none⟩ : RawMatch)))).length ∧
    0 < (List.replicate 16 (⟨none, none, none, none, none, none⟩ : RawMatch)).length ∧
    ((search_google_lens (Except.ok
        (List.replicate 16 (⟨none, none, none, none, none, none⟩ : RawMatch)))).length =
      min 15 (List.replicate 16 (⟨none, none, none, none, none, none⟩ : RawMatch)).length ∧
    search_google_lens (Except.ok
        (List.replicate 16 (⟨none, none, none, none, none, none⟩ : RawMatch))) =
      ((List.replicate 16 (⟨none, none, none, none, none, none⟩ : RawMatch)).take 15).map
        projectMatch ∧
    (search_google_lens (Except.ok
        (List.replicate 16 (⟨none, none, none, none, none, none⟩ : RawMatch)))).get
        ⟨0, by decide⟩ =
      { position := none, title := none, source := none,
        price := "N/A", extracted_price := 0, currency := "N/A" }) := by
  refine ⟨by decide, by decide, ?_⟩
  have h := search_google_lens_truncates_and_defaults
    (List.replicate 16 (⟨none, none, none, none, none, none⟩ : RawMatch)) 0
    (by decide) (by decide)
  exact ⟨h.1, h.2.1, h.2.2.trans (by decide)⟩

/-! ## C2: the summarizer is called exactly when the match list is non-empty -/

/-- C2: in one iteration of the per-image loop that reaches the search step
(200 download, successful decode), the summarizer is invoked exactly once
with the full match list when that list is non-empty, and never invoked when
it is empty; in the empty case no ImageResult is appended. -/
theorem summarizer_called_iff_matches (n i : Nat) (img : ImageRef) (env : ImgEnv)
    (s : RunState) (hst : env.fetchStatus = 200) (hdec : env.decodeOk = true) :
    (stepImage n i img env s).summCalls =
      s.summCalls ++ (if search_google_lens env.lensResp = [] then []
                      else [search_google_lens env.lensResp]) ∧
    (stepImage n i img env s).results =
      s.results ++ (if search_google_lens env.lensResp = [] then []
                    else [{ name := img.name
                            temp_image_path := "temp_image_" ++ img.id ++ ".png"
                            analysis := get_anthropic_analysis env.anthropicResp }]) := by
  cases hL : search_google_lens env.lensResp with
  | nil => simp [stepImage, hst, hdec, hL]
  | cons a l => simp [stepImage, hst, hdec, hL]

/-- C2 witness: one concrete step with a non-empty match list invokes the
summarizer once with that list, and one with an empty list invokes it not at
all and appends nothing. -/
theorem summarizer_called_iff_matches_witness :
    (stepImage 1 0 ⟨"A", "u", "image_A.jpg"⟩
        ⟨200, true, Except.ok [⟨some 1, some "t", some "s", none, none, none⟩],
         Except.ok (ApiContent.str "fine")⟩
        ⟨[], [], [], [], [0, 20], []⟩).summCalls =
      [[{ position := some 1, title := some "t", source := some "s",
          price := "N/A", extracted_price := 0, currency := "N/A" }]] ∧
    (stepImage 1 0 ⟨"A", "u", "image_A.jpg"⟩
        ⟨200, true, Except.ok [], Except.ok (ApiContent.str "fine")⟩
        ⟨[], [], [], [], [0, 20], []⟩).summCalls = [] ∧
    (stepImage 1 0 ⟨"A", "u", "image_A.jpg"⟩
        ⟨200, true, Except.ok [], Except.ok (ApiContent.str "fine")⟩
        ⟨[], [], [], [], [0, 20], []⟩).results = [] := by
  refine ⟨?_, ?_, ?_⟩
  · exact (summarizer_called_iff_matches 1 0 _ _ _ rfl rfl).1.trans (by decide)
  · exact (summarizer_called_iff_matches 1 0 _ _ _ rfl rfl).1.trans (by decide)
  · exact (summarizer_called_iff_matches 1 0 _ _ _ rfl rfl).2.trans (by decide)

/-! ## C3: a non-200 download silently skips the image -/

/-- C3: for an image whose download returns a status other than 200, the loop
iteration appends no ImageResult, writes no transient file (neither the save
log nor the filesystem changes), makes no search or summarizer call, and
completes normally — only the progress report and the temp-path tracking of
the iteration happen, so the loop continues with the next image. -/
theorem non_200_download_skips_image (n i : Nat) (img : ImageRef) (env : ImgEnv)
    (s : RunState) (hst : env.fetchStatus ≠ 200) :
    (stepImage n i img env s).results = s.results ∧
    (stepImage n i img env s).savedFiles = s.savedFiles ∧
    (stepImage n i img env s).fs = s.fs ∧
    (stepImage n i img env s).summCalls = s.summCalls ∧
    (stepImage n i img env s).progress = s.progress ++ [20 + 60 * (i + 1) / n] ∧
    (stepImage n i img env s).tempFiles =
      (if ("temp_image_" ++ img.id ++ ".png") ∈ s.tempFiles then s.tempFiles
       else s.tempFiles ++ ["temp_image_" ++ img.id ++ ".png"]) := by
  simp [stepImage, hst]

/-- C3 witness: a concrete 404 download leaves results, saves, filesystem and
summarizer calls untouched. -/
theorem non_200_download_skips_image_witness :
    (stepImage 1 0 ⟨"A", "u", "image_A.jpg"⟩
        ⟨404, true, Except.ok [⟨some 1, some "t", some "s", none, none, none⟩],
         Except.ok (ApiContent.str "fine")⟩
        ⟨[], [], ["other.txt"], [], [0, 20], []⟩).results = [] ∧
    (stepImage 1 0 ⟨"A", "u", "image_A.jpg"⟩
        ⟨404, true, Except.ok [⟨some 1, some "t", some "s", none, none, none⟩],
         Except.ok (ApiContent.str "fine")⟩
        ⟨[], [], ["other.txt"], [], [0, 20], []⟩).savedFiles = [] ∧
    (stepImage 1 0 ⟨"A", "u", "image_A.jpg"⟩
        ⟨404, true, Except.ok [⟨some 1, some "t", some "s", none, none, none⟩],
         Except.ok (ApiContent.str "fine")⟩
        ⟨[], [], ["other.txt"], [], [0, 20], []⟩).fs = ["other.txt"] := by
  have h := non_200_download_skips_image 1 0 ⟨"A", "u", "image_A.jpg"⟩
    ⟨404, true, Except.ok [⟨some 1, some "t", some "s", none, none, none⟩],
     Except.ok (ApiContent.str "fine")⟩
    ⟨[], [], ["other.txt"], [], [0, 20], []⟩ (by decide)
  exact ⟨h.1, h.2.1, h.2.2.1⟩

/-! ## C5: summarization failure yields the sentinel, row still produced -/

/-- C5: if the summarization call fails, `get_anthropic_analysis` returns the
exact sentinel `"Error in generating analysis"` instead of raising, and the
loop iteration (reaching it via a non-empty match list) still appends the
ImageResult row carrying the sentinel as its analysis text. -/
theorem anthropic_failure_sentinel_row_kept (err : String) (n i : Nat) (img : ImageRef)
    (env : ImgEnv) (s : RunState) (hst : env.fetchStatus = 200)
    (hdec : env.decodeOk = true) (hanth : env.anthropicResp = Except.error err)
    (hlens : search_google_lens env.lensResp ≠ []) :
    get_anthropic_analysis (Except.error err) = "Error in generating analysis" ∧
    (stepImage n i img env s).results =
      s.results ++ [{ name := img.name
                      temp_image_path := "temp_image_" ++ img.id ++ ".png"
                      analysis := "Error in generating analysis" }] := by
  refine ⟨rfl, ?_⟩
  cases hL : search_google_lens env.lensResp with
  | nil => exact absurd hL hlens
  | cons a l => simp [stepImage, hst, hdec, hL, hanth, get_anthropic_analysis]

/-- C5 witness: a concrete failing summarization call still appends the row,
with the sentinel as its analysis. -/
theorem anthropic_failure_sentinel_row_kept_witness :
    get_anthropic_analysis (Except.error "boom") = "Error in generating analysis" ∧
    (stepImage 1 0 ⟨"A", "u", "image_A.jpg"⟩
        ⟨200, true, Except.ok [⟨some 1, some "t", some "s", none, none, none⟩],
         Except.error "boom"⟩
        ⟨[], [], [], [], [0, 20], []⟩).results =
      [{ name := "image_A.jpg", temp_image_path := "temp_image_A.png",
         analysis := "Error in generating analysis" }] := by
  have h := anthropic_failure_sentinel_row_kept "boom" 1 0 ⟨"A", "u", "image_A.jpg"⟩
    ⟨200, true, Except.ok [⟨some 1, some "t", some "s", none, none, none⟩],
     Except.error "boom"⟩
    ⟨[], [], [], [], [0, 20], []⟩ rfl rfl rfl (by decide)
  exact ⟨h.1, h.2.trans (by decide)⟩

/-! ## C10: `.jpg` display name versus PNG transient file -/

/-- C10: every discovered image's display name is `image_<id>.jpg`, while its
transient file is saved at `temp_image_<id>.png` in PNG format; the display
name is never the path of the stored transient file. -/
theorem jpg_display_name_png_transient_file (body : String) (e : ImageRef)
    (he : e ∈ extract_file_ids_from_folder body) (n i : Nat) (env : ImgEnv)
    (s : RunState) (hst : env.fetchStatus = 200) (hdec : env.decodeOk = true) :
    e.name = "image_" ++ e.id ++ ".jpg" ∧
    (stepImage n i e env s).savedFiles =
      s.savedFiles ++ [("temp_image_" ++ e.id ++ ".png", "PNG")] ∧
    e.name ≠ "temp_image_" ++ e.id ++ ".png" := by
  have hname : e.name = "image_" ++ e.id ++ ".jpg" := by
    simp only [extract_file_ids_from_folder, List.mem_map] at he
    obtain ⟨fid, _, rfl⟩ := he
    rfl
  refine ⟨hname, ?_, ?_⟩
  · cases hL : search_google_lens env.lensResp with
    | nil => simp [stepImage, hst, hdec, hL]
    | cons a l => simp [stepImage, hst, hdec, hL]
  · intro hcontra
    have := congrArg String.length (hname ▸ hcontra)
    have l1 : ("image_" : String).length = 6 := by decide
    have l2 : (".jpg" : String).length = 4 := by decide
    have l3 : ("temp_image_" : String).length = 11 := by decide
    have l4 : (".png" : String).length = 4 := by decide
    simp [String.length_append, l1, l2, l3, l4] at this

/-- C10 witness: a concrete discovered image has name `image_AAA.jpg` while
its transient file is saved as `("temp_image_AAA.png", "PNG")`. -/
theorem jpg_display_name_png_transient_file_witness :
    (⟨"AAA", "https://drive.google.com/uc?id=AAA", "image_AAA.jpg"⟩ : ImageRef) ∈
      extract_file_ids_from_folder "https://drive.google.com/file/d/AAA" ∧
    ("image_AAA.jpg" : String) = "image_" ++ "AAA" ++ ".jpg" ∧
    (stepImage 1 0 ⟨"AAA", "https://drive.google.com/uc?id=AAA", "image_AAA.jpg"⟩
        ⟨200, true, Except.ok [], Except.ok (ApiContent.str "fine")⟩
        ⟨[], [], [], [], [0, 20], []⟩).savedFiles = [("temp_image_AAA.png", "PNG")] := by
  have h := jpg_display_name_png_transient_file
    "https://drive.google.com/file/d/AAA"
    ⟨"AAA", "https://drive.google.com/uc?id=AAA", "image_AAA.jpg"⟩
    (by decide) 1 0
    ⟨200, true, Except.ok [], Except.ok (ApiContent.str "fine")⟩
    ⟨[], [], [], [], [0, 20], []⟩ rfl rfl
  exact ⟨by decide, h.1, h.2.1.trans (by decide)⟩

/-! ## Helper lemmas on the run loop -/

lemma stepImage_progress (n i : Nat) (img : ImageRef) (env : ImgEnv) (s : RunState) :
    (stepImage n i img env s).progress = s.progress ++ [20 + 60 * (i + 1) / n] := by
  simp only [stepImage]
  split_ifs <;> rfl

lemma stepImage_results_tail (n i : Nat) (img : ImageRef) (env : ImgEnv) (s : RunState) :
    ∃ t, (stepImage n i img env s).results = s.results ++ t := by
  simp only [stepImage]
  split_ifs <;> first
    | exact ⟨[], (List.append_nil _).symm⟩
    | exact ⟨_, rfl⟩

lemma runImages_progress (n : Nat) (envs : Nat → ImgEnv) (imgs : List ImageRef) :
    ∀ (i : Nat) (s : RunState),
      (runImages n envs i imgs s).progress =
        s.progress ++ (List.range imgs.length).map fun j => 20 + 60 * (i + j + 1) / n := by
  induction imgs with
  | nil => intro i s; simp [runImages]
  | cons img rest ih =>
    intro i s
    rw [runImages, ih (i + 1) (stepImage n i img (envs i) s), stepImage_progress,
      List.append_assoc]
    congr 1
    rw [List.length_cons, List.range_succ_eq_map, List.map_cons, List.map_map,
      List.singleton_append]
    congr 1
    refine List.map_congr_left fun a _ => ?_
    show 20 + 60 * (i + 1 + a + 1) / n = 20 + 60 * (i + (a + 1) + 1) / n
    have harith : i + 1 + a + 1 = i + (a + 1) + 1 := by omega
    rw [harith]

/-! ## C7: every tracked transient file is gone after the run -/

/-- C7: in a run where extraction returned a non-empty image list, after
report generation (whatever the save outcome and whichever rows succeeded)
every transient path tracked during the run is deleted if it still exists: no
tracked transient file remains in the filesystem at the end of the run. -/
theorem temp_files_cleaned_after_report (body : String) (envs : Nat → ImgEnv)
    (eR : String → Bool) (saveOk : Bool) (outputFile : String) (fs0 : List String)
    (h : extract_file_ids_from_folder body ≠ []) :
    ∀ p ∈ (mainRun body envs eR saveOk outputFile fs0).tempFiles,
      p ∉ (mainRun body envs eR saveOk outputFile fs0).fs := by
  intro p hp hmem
  have himg : (extract_file_ids_from_folder body).isEmpty = false := by
    cases hI : (extract_file_ids_from_folder body).isEmpty
    · rfl
    · exact absurd (List.isEmpty_iff.mp hI) h
  simp only [mainRun, himg, Bool.false_eq_true, if_false] at hp hmem
  rw [List.mem_filter] at hmem
  exact (of_decide_eq_true hmem.2) hp

/-- C7 witness: a concrete successful run tracks one temp file, which is
absent from the final filesystem (which retains the saved report). -/
theorem temp_files_cleaned_after_report_witness :
    extract_file_ids_from_folder "https://drive.google.com/file/d/AAA" ≠ [] ∧
    (mainRun "https://drive.google.com/file/d/AAA"
        (fun _ => ⟨200, true, Except.ok [⟨some 1, some "t", some "s", none, none, none⟩],
                   Except.ok (ApiContent.str "fine")⟩)
        (fun _ => false) true "report_20250101_120000.xlsx" []).tempFiles =
      ["temp_image_AAA.png"] ∧
    (mainRun "https://drive.google.com/file/d/AAA"
        (fun _ => ⟨200, true, Except.ok [⟨some 1, some "t", some "s", none, none, none⟩],
                   Except.ok (ApiContent.str "fine")⟩)
        (fun _ => false) true "report_20250101_120000.xlsx" []).fs =
      ["report_20250101_120000.xlsx"] ∧
    (∀ p ∈ (mainRun "https://drive.google.com/file/d/AAA"
        (fun _ => ⟨200, true, Except.ok [⟨some 1, some "t", some "s", none, none, none⟩],
                   Except.ok (ApiContent.str "fine")⟩)
        (fun _ => false) true "report_20250101_120000.xlsx" []).tempFiles,
      p ∉ (mainRun "https://drive.google.com/file/d/AAA"
        (fun _ => ⟨200, true, Except.ok [⟨some 1, some "t", some "s", none, none, none⟩],
                   Except.ok (ApiContent.str "fine")⟩)
        (fun _ => false) true "report_20250101_120000.xlsx" []).fs) :=
  ⟨by decide, by decide, by decide,
   temp_files_cleaned_after_report _ _ _ _ _ _ (by decide)⟩

/-! ## C8: the progress trace and its monotonicity -/

lemma loopProgress_pairwise (n : Nat) : List.Pairwise (· ≤ ·) (loopProgress n) := by
  unfold loopProgress
  refine List.Pairwise.map _ ?_ (List.pairwise_lt_range n)
  intro a b hab
  exact Nat.add_le_add_left (Nat.div_le_div_right (Nat.mul_le_mul_left 60 (by omega))) 20

lemma loopProgress_bounds (n : Nat) (hn : 0 < n) :
    ∀ x ∈ loopProgress n, 20 ≤ x ∧ x ≤ 80 := by
  intro x hx
  unfold loopProgress at hx
  rw [List.mem_map] at hx
  obtain ⟨j, hj, rfl⟩ := hx
  rw [List.mem_range] at hj
  refine ⟨Nat.le_add_right _ _, ?_⟩
  have h1 : 60 * (j + 1) ≤ 60 * n := Nat.mul_le_mul_left _ (by omega)
  have h2 : 60 * (j + 1) / n ≤ 60 * n / n := Nat.div_le_div_right h1
  have h3 : 60 * n / n = 60 := Nat.mul_div_cancel 60 hn
  omega

lemma create_excel_report_snd (rs : List ImageResultRec) (fE eR : String → Bool)
    (saveOk : Bool) : (create_excel_report rs fE eR saveOk).2 = saveOk := rfl

lemma runState_progress_shape (body : String) (envs : Nat → ImgEnv) (eR : String → Bool)
    (saveOk : Bool) (outputFile : String) (fs0 : List String)
    (himg : (extract_file_ids_from_folder body).isEmpty = false) :
    (mainRun body envs eR saveOk outputFile fs0).progress =
      [0, 20] ++ loopProgress (extract_file_ids_from_folder body).length ++
        (if (mainRun body envs eR saveOk outputFile fs0).results.isEmpty then []
         else 90 :: if saveOk then [100] else []) := by
  simp only [mainRun, himg, Bool.false_eq_true, if_false, create_excel_report_snd]
  have hloop : ∀ s : RunState,
      (runImages (extract_file_ids_from_folder body).length envs 0
        (extract_file_ids_from_folder body) s).progress =
      s.progress ++ loopProgress (extract_file_ids_from_folder body).length := by
    intro s
    rw [runImages_progress]
    unfold loopProgress
    congr 1
    refine List.map_congr_left fun a _ => ?_
    have harith : 0 + a + 1 = a + 1 := by omega
    rw [harith]
  split_ifs with h1 h2 <;>
    first
    | (simp only [hloop, List.append_assoc, List.singleton_append]; simp [h1])
    | simp [hloop, List.append_assoc, h1]

/-- C8: for a run whose extraction found images, the trace of values reported
to the progress indicator is exactly 0 (bar creation), 20 after extraction,
the per-image values `20 + 60*(i+1)/n` spread linearly from 20 up to 80
across the loop, then 90 at report-generation start and 100 at completion
(these last two exactly when a report is generated resp. saved), and the
whole trace is monotonically non-decreasing: no reported value is ever
smaller than a previously reported one. -/
theorem progress_trace_monotone (body : String) (envs : Nat → ImgEnv) (eR : String → Bool)
    (saveOk : Bool) (outputFile : String) (fs0 : List String)
    (h : extract_file_ids_from_folder body ≠ []) :
    List.Pairwise (· ≤ ·) (mainRun body envs eR saveOk outputFile fs0).progress ∧
    (mainRun body envs eR saveOk outputFile fs0).progress =
      [0, 20] ++ loopProgress (extract_file_ids_from_folder body).length ++
        (if (mainRun body envs eR saveOk outputFile fs0).results.isEmpty then []
         else 90 :: if saveOk then [100] else []) := by
  have himg : (extract_file_ids_from_folder body).isEmpty = false := by
    cases hI : (extract_file_ids_from_folder body).isEmpty
    · rfl
    · exact absurd (List.isEmpty_iff.mp hI) h
  have hshape := runState_progress_shape body envs eR saveOk outputFile fs0 himg
  refine ⟨?_, hshape⟩
  rw [hshape]
  have hn : 0 < (extract_file_ids_from_folder body).length := List.length_pos.mpr h
  rw [List.pairwise_append, List.pairwise_append]
  refine ⟨⟨by decide, loopProgress_pairwise _, ?_⟩, ?_, ?_⟩
  · intro a ha b hb
    have hb' := (loopProgress_bounds _ hn b hb).1
    have ha' : a = 0 ∨ a = 20 := by simpa using ha
    rcases ha' with rfl | rfl <;> omega
  · split_ifs <;> decide
  · intro a ha b hb
    have ha' : a ≤ 80 := by
      rw [List.mem_append] at ha
      rcases ha with ha | ha
      · have : a = 0 ∨ a = 20 := by simpa using ha
        rcases this with rfl | rfl <;> omega
      · exact (loopProgress_bounds _ hn a ha).2
    have hb' : 90 ≤ b := by
      rcases hmem : (mainRun body envs eR saveOk outputFile fs0).results.isEmpty with _ | _ <;>
        rw [hmem] at hb
      · rcases (by simpa using hb : b = 90 ∨ saveOk = true ∧ b = 100) with rfl | ⟨_, rfl⟩ <;>
          omega
      · simp at hb
    omega

/-- C8 witness: a concrete one-image successful run reports exactly
0, 20, 80, 90, 100, a non-decreasing trace. -/
theorem progress_trace_monotone_witness :
    extract_file_ids_from_folder "https://drive.google.com/file/d/AAA" ≠ [] ∧
    (mainRun "https://drive.google.com/file/d/AAA"
        (fun _ => ⟨200, true, Except.ok [⟨some 1, some "t", some "s", none, none, none⟩],
                   Except.ok (ApiContent.str "fine")⟩)
        (fun _ => false) true "report_20250101_120001.xlsx" []).progress =
      [0, 20, 80, 90, 100] ∧
    List.Pairwise (· ≤ ·)
      (mainRun "https://drive.google.com/file/d/AAA"
        (fun _ => ⟨200, true, Except.ok [⟨some 1, some "t", some "s", none, none, none⟩],
                   Except.ok (ApiContent.str "fine")⟩)
        (fun _ => false) true "report_20250101_120001.xlsx" []).progress :=
  ⟨by decide, by decide,
   (progress_trace_monotone "https://drive.google.com/file/d/AAA"
     (fun _ => ⟨200, true, Except.ok [⟨some 1, some "t", some "s", none, none, none⟩],
                Except.ok (ApiContent.str "fine")⟩)
     (fun _ => false) true "report_20250101_120001.xlsx" [] (by decide)).1⟩

/-! ## Worksheet lemmas for the report builder -/

lemma updateCell_cells_same (ws : Worksheet) (r c : Nat) (f : CellData → CellData) :
    (updateCell ws r c f).cells (r, c) = f (ws.cells (r, c)) := by
  simp [updateCell]

lemma updateCell_cells_other (ws : Worksheet) (r c : Nat) (f : CellData → CellData)
    (r' c' : Nat) (h : (r', c') ≠ (r, c)) :
    (updateCell ws r c f).cells (r', c') = ws.cells (r', c') := by
  simp [updateCell, h]

lemma setupHeaders_cells_one (ws : Worksheet) :
    (setupHeaders ws).cells (1, 1) =
      { ws.cells (1, 1) with value := some "Image", bold := true, centered := true } := rfl

lemma setupHeaders_cells_two (ws : Worksheet) :
    (setupHeaders ws).cells (1, 2) =
      { ws.cells (1, 2) with value := some "File Name", bold := true, centered := true } := rfl

lemma setupHeaders_cells_three (ws : Worksheet) :
    (setupHeaders ws).cells (1, 3) =
      { ws.cells (1, 3) with value := some "Analysis", bold := true, centered := true } := rfl

lemma setupHeaders_cells_other (ws : Worksheet) (r c : Nat) (h : r ≠ 1) :
    (setupHeaders ws).cells (r, c) = ws.cells (r, c) := by
  simp [setupHeaders, updateCell, Prod.mk.injEq, h]

lemma setupHeaders_rowHeights (ws : Worksheet) :
    (setupHeaders ws).rowHeights = ws.rowHeights := rfl

lemma writeNameAnalysis_cells_self (k : Nat) (res : ImageResultRec) (ws : Worksheet)
    (c : Nat) :
    (writeNameAnalysis k res ws).cells (k, c) =
      if c = 3 then
        { ws.cells (k, c) with value := some res.analysis, wrapText := true, vertTop := true }
      else if c = 2 then { ws.cells (k, c) with value := some res.name }
      else ws.cells (k, c) := by
  simp only [writeNameAnalysis, updateCell, Prod.mk.injEq]
  split_ifs <;> simp_all

lemma writeNameAnalysis_cells_other (k : Nat) (res : ImageResultRec) (ws : Worksheet)
    (r c : Nat) (h : r ≠ k) :
    (writeNameAnalysis k res ws).cells (r, c) = ws.cells (r, c) := by
  simp [writeNameAnalysis, updateCell, Prod.mk.injEq, h]

lemma writeNameAnalysis_heights_self (k : Nat) (res : ImageResultRec) (ws : Worksheet) :
    (writeNameAnalysis k res ws).rowHeights k =
      some (max 200 (lineCount res.analysis * 15)) := by
  simp [writeNameAnalysis]

lemma writeNameAnalysis_heights_other (k : Nat) (res : ImageResultRec) (ws : Worksheet)
    (r : Nat) (h : r ≠ k) :
    (writeNameAnalysis k res ws).rowHeights r = ws.rowHeights r := by
  simp [writeNameAnalysis, updateCell, h]

lemma addRow_cells_self (fE eR : String → Bool) (k : Nat) (res : ImageResultRec)
    (ws : Worksheet) (c : Nat) :
    (addRow fE eR k res ws).cells (k, c) =
      if fE res.temp_image_path && eR res.temp_image_path then ws.cells (k, c)
      else if c = 3 then
        { ws.cells (k, c) with value := some res.analysis, wrapText := true, vertTop := true }
      else if c = 2 then { ws.cells (k, c) with value := some res.name }
      else ws.cells (k, c) := by
  unfold addRow
  cases hf : fE res.temp_image_path with
  | false => simp [hf, writeNameAnalysis_cells_self]
  | true =>
    cases hr : eR res.temp_image_path with
    | false =>
      simp only [hf, hr, Bool.and_self, if_true, if_false, Bool.true_and, ite_false,
        Bool.false_eq_true]
      exact writeNameAnalysis_cells_self k res _ c
    | true => simp [hf, hr]

lemma addRow_cells_other (fE eR : String → Bool) (k : Nat) (res : ImageResultRec)
    (ws : Worksheet) (r c : Nat) (h : r ≠ k) :
    (addRow fE eR k res ws).cells (r, c) = ws.cells (r, c) := by
  unfold addRow
  split_ifs <;> simp [writeNameAnalysis_cells_other, h]

lemma addRow_heights_self (fE eR : String → Bool) (k : Nat) (res : ImageResultRec)
    (ws : Worksheet) :
    (addRow fE eR k res ws).rowHeights k =
      if fE res.temp_image_path && eR res.temp_image_path then ws.rowHeights k
      else some (max 200 (lineCount res.analysis * 15)) := by
  unfold addRow
  cases hf : fE res.temp_image_path with
  | false => simp [hf, writeNameAnalysis_heights_self]
  | true =>
    cases hr : eR res.temp_image_path with
    | false =>
      simp only [hf, hr, Bool.and_self, Bool.true_and, ite_false, Bool.false_eq_true]
      exact writeNameAnalysis_heights_self k res _
    | true => simp [hf, hr]

lemma addRow_heights_other (fE eR : String → Bool) (k : Nat) (res : ImageResultRec)
    (ws : Worksheet) (r : Nat) (h : r ≠ k) :
    (addRow fE eR k res ws).rowHeights r = ws.rowHeights r := by
  unfold addRow
  split_ifs <;> simp [writeNameAnalysis_heights_other, h]

lemma addRows_cells_low (fE eR : String → Bool) (rs : List ImageResultRec) :
    ∀ (k : Nat) (ws : Worksheet) (r c : Nat), r < k →
      (addRows fE eR k rs ws).cells (r, c) = ws.cells (r, c) := by
  induction rs with
  | nil => intro k ws r c _; rfl
  | cons res rest ih =>
    intro k ws r c hr
    rw [addRows, ih (k + 1) _ r c (by omega), addRow_cells_other _ _ _ _ _ _ _ (by omega)]

lemma addRows_cells_high (fE eR : String → Bool) (rs : List ImageResultRec) :
    ∀ (k : Nat) (ws : Worksheet) (r c : Nat), k + rs.length ≤ r →
      (addRows fE eR k rs ws).cells (r, c) = ws.cells (r, c) := by
  induction rs with
  | nil => intro k ws r c _; rfl
  | cons res rest ih =>
    intro k ws r c hr
    rw [List.length_cons] at hr
    rw [addRows, ih (k + 1) _ r c (by omega), addRow_cells_other _ _ _ _ _ _ _ (by omega)]

lemma addRows_cells_hit (fE eR : String → Bool) (rs : List ImageResultRec) :
    ∀ (k : Nat) (ws : Worksheet) (j : Nat) (hj : j < rs.length) (c : Nat),
      (addRows fE eR k rs ws).cells (k + j, c) =
        (if fE (rs.get ⟨j, hj⟩).temp_image_path && eR (rs.get ⟨j, hj⟩).temp_image_path then
          ws.cells (k + j, c)
        else if c = 3 then
          { ws.cells (k + j, c) with
              value := some (rs.get ⟨j, hj⟩).analysis
              wrapText := true
              vertTop := true }
        else if c = 2 then { ws.cells (k + j, c) with value := some (rs.get ⟨j, hj⟩).name }
        else ws.cells (k + j, c)) := by
  induction rs with
  | nil => intro k ws j hj c; exact absurd hj (by simp)
  | cons res rest ih =>
    intro k ws j hj c
    match j with
    | 0 =>
      rw [addRows, addRows_cells_low fE eR rest (k + 1) _ (k + 0) c (by omega)]
      simpa using addRow_cells_self fE eR k res ws c
    | j' + 1 =>
      have harr : k + (j' + 1) = (k + 1) + j' := by omega
      rw [addRows, harr, ih (k + 1) _ j' (by simpa using hj) c,
        addRow_cells_other _ _ _ _ _ _ _ (by omega)]
      rfl

lemma addRows_heights_low (fE eR : String → Bool) (rs : List ImageResultRec) :
    ∀ (k : Nat) (ws : Worksheet) (r : Nat), r < k →
      (addRows fE eR k rs ws).rowHeights r = ws.rowHeights r := by
  induction rs with
  | nil => intro k ws r _; rfl
  | cons res rest ih =>
    intro k ws r hr
    rw [addRows, ih (k + 1) _ r (by omega), addRow_heights_other _ _ _ _ _ _ (by omega)]

lemma addRows_heights_high (fE eR : String → Bool) (rs : List ImageResultRec) :
    ∀ (k : Nat) (ws : Worksheet) (r : Nat), k + rs.length ≤ r →
      (addRows fE eR k rs ws).rowHeights r = ws.rowHeights r := by
  induction rs with
  | nil => intro k ws r _; rfl
  | cons res rest ih =>
    intro k ws r hr
    rw [List.length_cons] at hr
    rw [addRows, ih (k + 1) _ r (by omega), addRow_heights_other _ _ _ _ _ _ (by omega)]

lemma addRows_heights_hit (fE eR : String → Bool) (rs : List ImageResultRec) :
    ∀ (k : Nat) (ws : Worksheet) (j : Nat) (hj : j < rs.length),
      (addRows fE eR k rs ws).rowHeights (k + j) =
        (if fE (rs.get ⟨j, hj⟩).temp_image_path && eR (rs.get ⟨j, hj⟩).temp_image_path then
          ws.rowHeights (k + j)
        else some (max 200 (lineCount (rs.get ⟨j, hj⟩).analysis * 15))) := by
  induction rs with
  | nil => intro k ws j hj; exact absurd hj (by simp)
  | cons res rest ih =>
    intro k ws j hj
    match j with
    | 0 =>
      rw [addRows, addRows_heights_low fE eR rest (k + 1) _ (k + 0) (by omega)]
      simpa using addRow_heights_self fE eR k res ws
    | j' + 1 =>
      have harr : k + (j' + 1) = (k + 1) + j' := by omega
      rw [addRows, harr, ih (k + 1) _ j' (by simpa using hj),
        addRow_heights_other _ _ _ _ _ _ (by omega)]
      rfl

lemma applyBorderRow_cells (ws : Worksheet) (r r' c' : Nat) :
    (applyBorderRow ws r).cells (r', c') =
      if r' = r ∧ (c' = 1 ∨ c' = 2 ∨ c' = 3) then { ws.cells (r', c') with border := true }
      else ws.cells (r', c') := by
  simp only [applyBorderRow, List.foldl_cons, List.foldl_nil, updateCell, Prod.mk.injEq]
  split_ifs <;> simp_all

lemma applyBorderRow_rowHeights (ws : Worksheet) (r : Nat) :
    (applyBorderRow ws r).rowHeights = ws.rowHeights := rfl

lemma applyBorderRow_colWidths (ws : Worksheet) (r : Nat) :
    (applyBorderRow ws r).colWidths = ws.colWidths := rfl

lemma applyBorders_fold_rowHeights (l : List Nat) :
    ∀ ws : Worksheet, (l.foldl applyBorderRow ws).rowHeights = ws.rowHeights := by
  induction l with
  | nil => intro ws; rfl
  | cons x xs ih => intro ws; rw [List.foldl_cons, ih, applyBorderRow_rowHeights]

lemma applyBorders_fold_colWidths (l : List Nat) :
    ∀ ws : Worksheet, (l.foldl applyBorderRow ws).colWidths = ws.colWidths := by
  induction l with
  | nil => intro ws; rfl
  | cons x xs ih => intro ws; rw [List.foldl_cons, ih, applyBorderRow_colWidths]

lemma applyBorders_rowHeights (ws : Worksheet) (m : Nat) :
    (applyBorders ws m).rowHeights = ws.rowHeights :=
  applyBorders_fold_rowHeights _ ws

lemma applyBorders_colWidths (ws : Worksheet) (m : Nat) :
    (applyBorders ws m).colWidths = ws.colWidths :=
  applyBorders_fold_colWidths _ ws

lemma applyBorders_cells (ws : Worksheet) (m : Nat) (r c : Nat) :
    (applyBorders ws m).cells (r, c) =
      if (1 ≤ r ∧ r ≤ m) ∧ (c = 1 ∨ c = 2 ∨ c = 3) then
        { ws.cells (r, c) with border := true }
      else ws.cells (r, c) := by
  induction m generalizing ws with
  | zero =>
    have hno : ¬((1 ≤ r ∧ r ≤ 0) ∧ (c = 1 ∨ c = 2 ∨ c = 3)) := by omega
    show ws.cells (r, c) = _
    rw [if_neg hno]
  | succ m ih =>
    have hfold : applyBorders ws (m + 1) = applyBorderRow (applyBorders ws m) (m + 1) := by
      unfold applyBorders
      rw [List.range_succ, List.map_append, List.foldl_append]
      rfl
    rw [hfold, applyBorderRow_cells, ih]
    split_ifs <;> first | rfl | (exfalso; omega)

lemma setColumnWidths_cells (ws : Worksheet) : (setColumnWidths ws).cells = ws.cells := rfl

lemma addRow_colWidths (fE eR : String → Bool) (k : Nat) (res : ImageResultRec)
    (ws : Worksheet) : (addRow fE eR k res ws).colWidths = ws.colWidths := by
  unfold addRow
  split_ifs <;> rfl

lemma addRows_colWidths (fE eR : String → Bool) (rs : List ImageResultRec) :
    ∀ (k : Nat) (ws : Worksheet), (addRows fE eR k rs ws).colWidths = ws.colWidths := by
  induction rs with
  | nil => intro k ws; rfl
  | cons res rest ih => intro k ws; rw [addRows, ih, addRow_colWidths]

lemma report_cells_value (results : List ImageResultRec) (fE eR : String → Bool)
    (saveOk : Bool) (r c : Nat) :
    (((create_excel_report results fE eR saveOk).1.cells (r, c))).value =
      ((addRows fE eR 2 results (setupHeaders emptyWorksheet)).cells (r, c)).value := by
  show ((applyBorders (setColumnWidths (addRows fE eR 2 results (setupHeaders emptyWorksheet)))
      (results.length + 1)).cells (r, c)).value = _
  rw [applyBorders_cells]
  split_ifs <;> rfl

lemma report_cells_bold (results : List ImageResultRec) (fE eR : String → Bool)
    (saveOk : Bool) (r c : Nat) :
    (((create_excel_report results fE eR saveOk).1.cells (r, c))).bold =
      ((addRows fE eR 2 results (setupHeaders emptyWorksheet)).cells (r, c)).bold := by
  show ((applyBorders (setColumnWidths (addRows fE eR 2 results (setupHeaders emptyWorksheet)))
      (results.length + 1)).cells (r, c)).bold = _
  rw [applyBorders_cells]
  split_ifs <;> rfl

lemma report_cells_centered (results : List ImageResultRec) (fE eR : String → Bool)
    (saveOk : Bool) (r c : Nat) :
    (((create_excel_report results fE eR saveOk).1.cells (r, c))).centered =
      ((addRows fE eR 2 results (setupHeaders emptyWorksheet)).cells (r, c)).centered := by
  show ((applyBorders (setColumnWidths (addRows fE eR 2 results (setupHeaders emptyWorksheet)))
      (results.length + 1)).cells (r, c)).centered = _
  rw [applyBorders_cells]
  split_ifs <;> rfl

lemma report_cells_border (results : List ImageResultRec) (fE eR : String → Bool)
    (saveOk : Bool) (r c : Nat) (h1 : 1 ≤ r) (h2 : r ≤ results.length + 1)
    (h3 : c = 1 ∨ c = 2 ∨ c = 3) :
    (((create_excel_report results fE eR saveOk).1.cells (r, c))).border = true := by
  show ((applyBorders (setColumnWidths (addRows fE eR 2 results (setupHeaders emptyWorksheet)))
      (results.length + 1)).cells (r, c)).border = _
  rw [applyBorders_cells, if_pos ⟨⟨h1, h2⟩, h3⟩]

lemma report_rowHeights (results : List ImageResultRec) (fE eR : String → Bool)
    (saveOk : Bool) (r : Nat) :
    (create_excel_report results fE eR saveOk).1.rowHeights r =
      (addRows fE eR 2 results (setupHeaders emptyWorksheet)).rowHeights r := by
  show (applyBorders (setColumnWidths (addRows fE eR 2 results (setupHeaders emptyWorksheet)))
      (results.length + 1)).rowHeights r = _
  rw [applyBorders_rowHeights]
  rfl

lemma report_colWidths (results : List ImageResultRec) (fE eR : String → Bool)
    (saveOk : Bool) (s : String) :
    (create_excel_report results fE eR saveOk).1.colWidths s =
      (if s = "A" then some 30 else if s = "B" then some 30
       else if s = "C" then some 50 else none) := by
  show (applyBorders (setColumnWidths (addRows fE eR 2 results (setupHeaders emptyWorksheet)))
      (results.length + 1)).colWidths s = _
  rw [applyBorders_colWidths]
  show (if s = "A" then some 30 else if s = "B" then some 30 else if s = "C" then some 50
      else (addRows fE eR 2 results (setupHeaders emptyWorksheet)).colWidths s) = _
  rw [addRows_colWidths]
  rfl

lemma base_value_zero (results : List ImageResultRec) (fE eR : String → Bool) (c : Nat) :
    ((addRows fE eR 2 results (setupHeaders emptyWorksheet)).cells (0, c)).value = none := by
  rw [addRows_cells_low fE eR results 2 _ 0 c (by omega),
    setupHeaders_cells_other _ _ _ (by omega)]
  rfl

lemma base_value_high (results : List ImageResultRec) (fE eR : String → Bool) (r c : Nat)
    (h : results.length + 2 ≤ r) :
    ((addRows fE eR 2 results (setupHeaders emptyWorksheet)).cells (r, c)).value = none := by
  rw [addRows_cells_high fE eR results 2 _ r c (by omega),
    setupHeaders_cells_other _ _ _ (by omega)]
  rfl

lemma base_header_cells (results : List ImageResultRec) (fE eR : String → Bool) (c : Nat) :
    (addRows fE eR 2 results (setupHeaders emptyWorksheet)).cells (1, c) =
      (setupHeaders emptyWorksheet).cells (1, c) :=
  addRows_cells_low fE eR results 2 _ 1 c (by omega)

lemma base_row_name (results : List ImageResultRec) (fE eR : String → Bool) (j : Nat)
    (hj : j < results.length)
    (hok : (fE (results.get ⟨j, hj⟩).temp_image_path &&
            eR (results.get ⟨j, hj⟩).temp_image_path) = false) :
    ((addRows fE eR 2 results (setupHeaders emptyWorksheet)).cells (2 + j, 2)).value =
      some (results.get ⟨j, hj⟩).name := by
  rw [addRows_cells_hit fE eR results 2 _ j hj 2, hok]
  simp

lemma base_row_analysis (results : List ImageResultRec) (fE eR : String → Bool) (j : Nat)
    (hj : j < results.length)
    (hok : (fE (results.get ⟨j, hj⟩).temp_image_path &&
            eR (results.get ⟨j, hj⟩).temp_image_path) = false) :
    ((addRows fE eR 2 results (setupHeaders emptyWorksheet)).cells (2 + j, 3)).value =
      some (results.get ⟨j, hj⟩).analysis := by
  rw [addRows_cells_hit fE eR results 2 _ j hj 3, hok]
  simp

lemma base_row_fail (results : List ImageResultRec) (fE eR : String → Bool) (j c : Nat)
    (hj : j < results.length)
    (hfail : (fE (results.get ⟨j, hj⟩).temp_image_path &&
              eR (results.get ⟨j, hj⟩).temp_image_path) = true) :
    (addRows fE eR 2 results (setupHeaders emptyWorksheet)).cells (2 + j, c) =
      (setupHeaders emptyWorksheet).cells (2 + j, c) := by
  rw [addRows_cells_hit fE eR results 2 _ j hj c, hfail]
  simp

lemma base_height_hit (results : List ImageResultRec) (fE eR : String → Bool) (j : Nat)
    (hj : j < results.length)
    (hok : (fE (results.get ⟨j, hj⟩).temp_image_path &&
            eR (results.get ⟨j, hj⟩).temp_image_path) = false) :
    (addRows fE eR 2 results (setupHeaders emptyWorksheet)).rowHeights (2 + j) =
      some (max 200 (lineCount (results.get ⟨j, hj⟩).analysis * 15)) := by
  rw [addRows_heights_hit fE eR results 2 _ j hj, hok]
  simp

lemma base_height_fail (results : List ImageResultRec) (fE eR : String → Bool) (j : Nat)
    (hj : j < results.length)
    (hfail : (fE (results.get ⟨j, hj⟩).temp_image_path &&
              eR (results.get ⟨j, hj⟩).temp_image_path) = true) :
    (addRows fE eR 2 results (setupHeaders emptyWorksheet)).rowHeights (2 + j) = none := by
  rw [addRows_heights_hit fE eR results 2 _ j hj, hfail]
  simp [setupHeaders_rowHeights, emptyWorksheet]

/-! ## C6: report layout for N results -/

/-- C6: for a list of N ImageResult entries (whose rows raise no embedding
exception), `create_excel_report` produces a sheet whose populated rows are
exactly rows 1..N+1: one bold, centered header row Image / File Name /
Analysis, plus one data row per result in input order, with column widths
30, 30 and 50 for columns A, B and C. -/
theorem excel_report_layout (results : List ImageResultRec) (fE eR : String → Bool)
    (saveOk : Bool)
    (hok : ∀ res ∈ results, ¬(fE res.temp_image_path = true ∧ eR res.temp_image_path = true)) :
    (∀ r : Nat, rowPopulated (create_excel_report results fE eR saveOk).1 r = true ↔
        1 ≤ r ∧ r ≤ results.length + 1) ∧
    ((create_excel_report results fE eR saveOk).1.cells (1, 1)).value = some "Image" ∧
    ((create_excel_report results fE eR saveOk).1.cells (1, 2)).value = some "File Name" ∧
    ((create_excel_report results fE eR saveOk).1.cells (1, 3)).value = some "Analysis" ∧
    (∀ c : Nat, c = 1 ∨ c = 2 ∨ c = 3 →
      ((create_excel_report results fE eR saveOk).1.cells (1, c)).bold = true ∧
      ((create_excel_report results fE eR saveOk).1.cells (1, c)).centered = true) ∧
    (∀ j, ∀ hj : j < results.length,
      ((create_excel_report results fE eR saveOk).1.cells (2 + j, 2)).value =
        some (results.get ⟨j, hj⟩).name ∧
      ((create_excel_report results fE eR saveOk).1.cells (2 + j, 3)).value =
        some (results.get ⟨j, hj⟩).analysis) ∧
    (create_excel_report results fE eR saveOk).1.colWidths "A" = some 30 ∧
    (create_excel_report results fE eR saveOk).1.colWidths "B" = some 30 ∧
    (create_excel_report results fE eR saveOk).1.colWidths "C" = some 50 := by
  have hok' : ∀ (j : Nat) (hj : j < results.length),
      (fE (results.get ⟨j, hj⟩).temp_image_path &&
       eR (results.get ⟨j, hj⟩).temp_image_path) = false := by
    intro j hj
    have h := hok _ (List.get_mem results j hj)
    cases hfE : fE (results.get ⟨j, hj⟩).temp_image_path <;>
      cases hrE : eR (results.get ⟨j, hj⟩).temp_image_path <;> simp_all
  refine ⟨?_, ?_, ?_, ?_, ?_, ?_, ?_, ?_, ?_⟩
  · intro r
    match r with
    | 0 =>
      simp only [rowPopulated, report_cells_value, base_value_zero]
      simp
    | 1 =>
      constructor
      · intro _
        omega
      · intro _
        simp only [rowPopulated, report_cells_value, base_header_cells,
          setupHeaders_cells_one]
        simp
    | (r'' + 2) =>
      by_cases hj : r'' < results.length
      · constructor
        · intro _
          omega
        · intro _
          simp only [rowPopulated, report_cells_value]
          rw [show r'' + 2 = 2 + r'' by omega, base_row_name results fE eR r'' hj (hok' r'' hj)]
          simp
      · have hge : results.length + 2 ≤ r'' + 2 := by omega
        simp only [rowPopulated, report_cells_value, base_value_high results fE eR _ _ hge]
        simp
        omega
  · rw [report_cells_value, base_header_cells, setupHeaders_cells_one]
  · rw [report_cells_value, base_header_cells, setupHeaders_cells_two]
  · rw [report_cells_value, base_header_cells, setupHeaders_cells_three]
  · intro c hc
    rcases hc with rfl | rfl | rfl
    · rw [report_cells_bold, report_cells_centered, base_header_cells, setupHeaders_cells_one]
      exact ⟨rfl, rfl⟩
    · rw [report_cells_bold, report_cells_centered, base_header_cells, setupHeaders_cells_two]
      exact ⟨rfl, rfl⟩
    · rw [report_cells_bold, report_cells_centered, base_header_cells,
        setupHeaders_cells_three]
      exact ⟨rfl, rfl⟩
  · intro j hj
    constructor
    · rw [report_cells_value, base_row_name results fE eR j hj (hok' j hj)]
    · rw [report_cells_value, base_row_analysis results fE eR j hj (hok' j hj)]
  · rw [report_colWidths]; rfl
  · rw [report_colWidths]; rfl
  · rw [report_colWidths]; rfl

/-- C6 witness: one result row, no embedding failure: rows 1 and 2 are
populated, row 3 is not, and the widths are 30/30/50. -/
theorem excel_report_layout_witness :
    (∀ res ∈ [(⟨"image_A.jpg", "temp_image_A.png", "hello"⟩ : ImageResultRec)],
      ¬((fun _ => false) res.temp_image_path = true ∧
        (fun _ => false) res.temp_image_path = true)) ∧
    rowPopulated (create_excel_report [(⟨"image_A.jpg", "temp_image_A.png", "hello"⟩ : ImageResultRec)] (fun _ => false) (fun _ => false) true).1 1 = true ∧
    rowPopulated (create_excel_report [(⟨"image_A.jpg", "temp_image_A.png", "hello"⟩ : ImageResultRec)] (fun _ => false) (fun _ => false) true).1 2 = true ∧
    rowPopulated (create_excel_report [(⟨"image_A.jpg", "temp_image_A.png", "hello"⟩ : ImageResultRec)] (fun _ => false) (fun _ => false) true).1 3 = false ∧
    (∀ r : Nat, rowPopulated (create_excel_report [(⟨"image_A.jpg", "temp_image_A.png", "hello"⟩ : ImageResultRec)] (fun _ => false) (fun _ => false) true).1 r = true ↔
        1 ≤ r ∧ r ≤ 2) ∧
    (create_excel_report [(⟨"image_A.jpg", "temp_image_A.png", "hello"⟩ : ImageResultRec)] (fun _ => false) (fun _ => false) true).1.colWidths "A" = some 30 :=
  ⟨by decide, by decide, by decide, by decide,
   (excel_report_layout [(⟨"image_A.jpg", "temp_image_A.png", "hello"⟩ : ImageResultRec)]
      (fun _ => false) (fun _ => false) true (by decide)).1,
   (excel_report_layout [(⟨"image_A.jpg", "temp_image_A.png", "hello"⟩ : ImageResultRec)]
      (fun _ => false) (fun _ => false) true (by decide)).2.2.2.2.2.2.1⟩

/-! ## C9: a row whose image embedding raises is only partially populated -/

/-- C9: if embedding the thumbnail of data row i raises (the transient file
exists but `XLImage` fails), that row's File Name and Analysis cells stay
unwritten and its height is not set — the row still exists (bordered cells)
but carries no values — while every other non-failing row is fully written,
and the function's True/False result still equals the save outcome alone. -/
theorem excel_row_embed_failure_skips_cells (results : List ImageResultRec)
    (fE eR : String → Bool) (saveOk : Bool) (i : Nat) (hi : i < results.length)
    (hfail : fE (results.get ⟨i, hi⟩).temp_image_path = true ∧
             eR (results.get ⟨i, hi⟩).temp_image_path = true) :
    ((create_excel_report results fE eR saveOk).1.cells (2 + i, 2)).value = none ∧
    ((create_excel_report results fE eR saveOk).1.cells (2 + i, 3)).value = none ∧
    (create_excel_report results fE eR saveOk).1.rowHeights (2 + i) = none ∧
    ((create_excel_report results fE eR saveOk).1.cells (2 + i, 1)).border = true ∧
    ((create_excel_report results fE eR saveOk).1.cells (2 + i, 2)).border = true ∧
    ((create_excel_report results fE eR saveOk).1.cells (2 + i, 3)).border = true ∧
    (∀ j, ∀ hj : j < results.length, j ≠ i →
      ¬(fE (results.get ⟨j, hj⟩).temp_image_path = true ∧
        eR (results.get ⟨j, hj⟩).temp_image_path = true) →
      ((create_excel_report results fE eR saveOk).1.cells (2 + j, 2)).value =
        some (results.get ⟨j, hj⟩).name ∧
      ((create_excel_report results fE eR saveOk).1.cells (2 + j, 3)).value =
        some (results.get ⟨j, hj⟩).analysis ∧
      (create_excel_report results fE eR saveOk).1.rowHeights (2 + j) =
        some (max 200 (lineCount (results.get ⟨j, hj⟩).analysis * 15))) ∧
    (create_excel_report results fE eR saveOk).2 = saveOk := by
  have hfail' : (fE (results.get ⟨i, hi⟩).temp_image_path &&
      eR (results.get ⟨i, hi⟩).temp_image_path) = true := by
    rw [hfail.1, hfail.2]
    rfl
  refine ⟨?_, ?_, ?_, ?_, ?_, ?_, ?_, rfl⟩
  · rw [report_cells_value, base_row_fail results fE eR i 2 hi hfail',
      setupHeaders_cells_other _ _ _ (by omega)]
    rfl
  · rw [report_cells_value, base_row_fail results fE eR i 3 hi hfail',
      setupHeaders_cells_other _ _ _ (by omega)]
    rfl
  · rw [report_rowHeights, base_height_fail results fE eR i hi hfail']
  · exact report_cells_border results fE eR saveOk _ _ (by omega) (by omega) (by omega)
  · exact report_cells_border results fE eR saveOk _ _ (by omega) (by omega) (by omega)
  · exact report_cells_border results fE eR saveOk _ _ (by omega) (by omega) (by omega)
  · intro j hj _ hok
    have hok' : (fE (results.get ⟨j, hj⟩).temp_image_path &&
        eR (results.get ⟨j, hj⟩).temp_image_path) = false := by
      cases hfE : fE (results.get ⟨j, hj⟩).temp_image_path <;>
        cases hrE : eR (results.get ⟨j, hj⟩).temp_image_path <;> simp_all
    refine ⟨?_, ?_, ?_⟩
    · rw [report_cells_value, base_row_name results fE eR j hj hok']
    · rw [report_cells_value, base_row_analysis results fE eR j hj hok']
    · rw [report_rowHeights, base_height_hit results fE eR j hj hok']

/-- C9 witness: two rows; the first row's embedding raises, so its name and
analysis cells stay empty and its height is unset, while the second row is
fully written and the function still returns the save outcome. -/
theorem excel_row_embed_failure_skips_cells_witness :
    (0 < ([(⟨"image_A.jpg", "temp_image_A.png", "x"⟩ : ImageResultRec), (⟨"image_B.jpg", "temp_image_B.png", "y"⟩ : ImageResultRec)]).length ∧
     (fun p => p == "temp_image_A.png") "temp_image_A.png" = true ∧
     (fun p => p == "temp_image_A.png") "temp_image_A.png" = true) ∧
    ((create_excel_report [(⟨"image_A.jpg", "temp_image_A.png", "x"⟩ : ImageResultRec), (⟨"image_B.jpg", "temp_image_B.png", "y"⟩ : ImageResultRec)] (fun p => p == "temp_image_A.png") (fun p => p == "temp_image_A.png") true).1.cells (2, 2)).value = none ∧
    ((create_excel_report [(⟨"image_A.jpg", "temp_image_A.png", "x"⟩ : ImageResultRec), (⟨"image_B.jpg", "temp_image_B.png", "y"⟩ : ImageResultRec)] (fun p => p == "temp_image_A.png") (fun p => p == "temp_image_A.png") true).1.cells (3, 2)).value = some "image_B.jpg" ∧
    (create_excel_report [(⟨"image_A.jpg", "temp_image_A.png", "x"⟩ : ImageResultRec), (⟨"image_B.jpg", "temp_image_B.png", "y"⟩ : ImageResultRec)] (fun p => p == "temp_image_A.png") (fun p => p == "temp_image_A.png") true).1.rowHeights 2 = none ∧
    (create_excel_report [(⟨"image_A.jpg", "temp_image_A.png", "x"⟩ : ImageResultRec), (⟨"image_B.jpg", "temp_image_B.png", "y"⟩ : ImageResultRec)] (fun p => p == "temp_image_A.png") (fun p => p == "temp_image_A.png") true).2 = true :=
  ⟨⟨by decide, by decide, by decide⟩,
   (excel_row_embed_failure_skips_cells
      [(⟨"image_A.jpg", "temp_image_A.png", "x"⟩ : ImageResultRec), (⟨"image_B.jpg", "temp_image_B.png", "y"⟩ : ImageResultRec)]
      (fun p => p == "temp_image_A.png") (fun p => p == "temp_image_A.png") true 0
      (by decide) ⟨by decide, by decide⟩).1,
   by decide, by decide, by decide⟩
